import Mathlib

/-!
Verification development for the PingTools latency tester (`src/ping.py`).

The script resolves a heterogeneous list of textual target specifications
(bare addresses, `addr:port` pairs, CIDR blocks, bracketed IPv6, domain
names) into a deduplicated collection of `(address, port)` targets, probes
each target with one of three strategies (UDP, TCP, ICMP) and ranks the
outcomes.  This file gives a shallow embedding of that code:

* the pure text-processing functions (`parse_targets` and the helpers it
  calls from Python's `ipaddress` module) become executable Lean functions
  on `String`/`List Char`;
* the network is abstracted by explicit event/oracle parameters: a DNS
  oracle `String → DnsResult` stands for `socket.getaddrinfo`, and each
  prober takes an event describing what the socket layer did (measured
  elapsed time, timeout, raised exception);
* latencies are rationals (`ℚ`), ports and Python `int` results are `ℤ`,
  IPv4/IPv6 addresses are `ℕ` values below `2^32`/`2^128`;
* the one piece of process-global state the script touches
  (`socket.setdefaulttimeout`) is threaded explicitly through
  `resolve_domain`.
-/

/-! ### Configuration constants (ping.py lines 13-16) -/

/-- Embeds `TIMEOUT_SECONDS = 1.5` (ping.py line 13). -/
def TIMEOUT_SECONDS : ℚ := 3 / 2

/-- Embeds `TIMEOUT_THRESHOLD_MS = TIMEOUT_SECONDS * 1000 - 10` (ping.py line 14). -/
def TIMEOUT_THRESHOLD_MS : ℚ := TIMEOUT_SECONDS * 1000 - 10

/-- Embeds `DNS_TIMEOUT = 2` (ping.py line 16), the bounded wait used for DNS. -/
def DNS_TIMEOUT : ℚ := 2

/-! ### Character and digit primitives -/

/-- ASCII decimal digit test, as used by Python's `str.isdigit` restricted to
ASCII (the `ipaddress` octet/prefix parsers additionally require
`isascii()`; non-ASCII digits are not modelled). -/
def isAsciiDigit (c : Char) : Bool := '0' ≤ c && c ≤ '9'

/-- ASCII hexadecimal digit test, Python's `_HEX_DIGITS` set
`0123456789ABCDEFabcdef` from the `ipaddress` module. -/
def isAsciiHexDigit (c : Char) : Bool :=
  isAsciiDigit c || ('a' ≤ c && c ≤ 'f') || ('A' ≤ c && c ≤ 'F')

/-- Numeric value of a list of decimal digit characters (most significant
first), the value computed by Python's `int(s)` on a digit string. -/
def decDigitsVal (cs : List Char) : ℕ :=
  cs.foldl (fun a c => a * 10 + (c.toNat - 48)) 0

/-- Numeric value of a list of hexadecimal digit characters, the value
computed by Python's `int(s, 16)`. -/
def hexDigitVal (c : Char) : ℕ :=
  if isAsciiDigit c then c.toNat - 48
  else if 'a' ≤ c && c ≤ 'f' then c.toNat - 87
  else c.toNat - 55

/-- Value of a hexadecimal digit string, most significant digit first. -/
def hexDigitsVal (cs : List Char) : ℕ :=
  cs.foldl (fun a c => a * 16 + hexDigitVal c) 0

/-- Whitespace characters stripped by Python's `str.strip()` (the common
ASCII ones; the exotic Unicode whitespace code points are not modelled). -/
def isPySpace (c : Char) : Bool :=
  c == ' ' || c == '\t' || c == '\n' || c == '\x0d' || c == '\x0b' || c == '\x0c'

/-- Embeds Python's `str.strip()`: drop leading and trailing whitespace. -/
def pyStrip (cs : List Char) : List Char :=
  ((cs.dropWhile isPySpace).reverse.dropWhile isPySpace).reverse

/-- Splitting a character list at every occurrence of a separator, the
behaviour of Python's `str.split(sep)` for a one-character separator:
`splitSep ':' "a:b"` is `["a", "b"]`, and empty pieces are kept. -/
def splitSep (sep : Char) : List Char → List (List Char)
  | [] => [[]]
  | c :: cs =>
    match splitSep sep cs with
    | [] => [[]]
    | p :: ps => if c = sep then [] :: p :: ps else (c :: p) :: ps

/-- Embeds Python's `int(s)` on a string: strip whitespace, optional sign,
then a nonempty run of ASCII decimal digits.  (Underscore digit grouping
and non-ASCII digits accepted by CPython are not modelled.)  Returns
`none` where `int()` raises `ValueError`. -/
def pyInt (s : List Char) : Option ℤ :=
  match pyStrip s with
  | '-' :: ds =>
      if ds ≠ [] ∧ ds.all isAsciiDigit then some (-(decDigitsVal ds : ℤ)) else none
  | '+' :: ds =>
      if ds ≠ [] ∧ ds.all isAsciiDigit then some ((decDigitsVal ds : ℤ)) else none
  | ds =>
      if ds ≠ [] ∧ ds.all isAsciiDigit then some ((decDigitsVal ds : ℤ)) else none

/-! ### Python `ipaddress` string parsing

`ipaddress.ip_address` / `ip_network` are Python standard library calls made
by `parse_targets`; the following functions model their textual parsing on
the forms the script can meet.  Addresses are represented by their numeric
value (`ℕ`). -/

/-- Embeds `ipaddress._parse_octet`: one dotted-quad component. Nonempty,
at most 3 ASCII decimal digits, value at most 255, and no leading zero
(CPython rejects ambiguous octets with leading zeros). -/
def parseOctet (cs : List Char) : Option ℕ :=
  if cs = [] ∨ 3 < cs.length ∨ ¬ cs.all isAsciiDigit then none
  else if 255 < decDigitsVal cs then none
  else if 1 < cs.length ∧ cs.head? = some '0' then none
  else some (decDigitsVal cs)

/-- Embeds `IPv4Address(s)` string parsing: exactly four octets separated
by dots. Returns the 32-bit numeric value. -/
def parseIPv4 (cs : List Char) : Option ℕ :=
  match splitSep '.' cs with
  | [a, b, c, d] => do
      let a' ← parseOctet a
      let b' ← parseOctet b
      let c' ← parseOctet c
      let d' ← parseOctet d
      pure (((a' * 256 + b') * 256 + c') * 256 + d')
  | _ => none

/-- Embeds `ipaddress._parse_hextet`: one `:`-separated IPv6 group, 1 to 4
ASCII hexadecimal digits. -/
def parseHextet (cs : List Char) : Option ℕ :=
  if cs ≠ [] ∧ cs.length ≤ 4 ∧ cs.all isAsciiHexDigit then some (hexDigitsVal cs) else none

/-- Folding hextet values into an address accumulator, the
`ip_int = (ip_int << 16) | hextet` loop of `_ip_int_from_string`. -/
def hextetsVal (vs : List ℕ) : ℕ :=
  vs.foldl (fun a v => a * 65536 + v) 0

/-- Embeds `IPv6Address(s)` string parsing (`_ip_int_from_string`): split on
`:`, require at least 3 parts, substitute a trailing embedded IPv4 address
by two hextets, allow at most one `::` run, and assemble the 128-bit value.
Zone identifiers (`%zone`) are not modelled. Returns `none` where CPython
raises `AddressValueError`. -/
def parseIPv6 (cs : List Char) : Option ℕ := do
  let parts0 := splitSep ':' cs
  if parts0.length < 3 then none else
  let lastPart := parts0.getLastD []
  let parts ←
    if '.' ∈ lastPart then
      match parseIPv4 lastPart with
      | some v4 => some (parts0.dropLast ++ [Nat.toDigits 16 (v4 / 65536), Nat.toDigits 16 (v4 % 65536)])
      | none => none
    else some parts0
  if 9 < parts.length then none else
  let inner := (parts.drop 1).dropLast
  if 2 ≤ inner.countP (fun p => p.isEmpty) then none else
  match inner.findIdx? (fun p => p.isEmpty) with
  | some j =>
      let skip := j + 1
      let hi ← if (parts.headD [' ']).isEmpty then (if skip = 1 then some 0 else none) else some skip
      let lo0 := parts.length - skip - 1
      let lo ← if (parts.getLastD [' ']).isEmpty then (if lo0 = 1 then some 0 else none) else some lo0
      if 8 ≤ hi + lo then none else
      let skipped := 8 - (hi + lo)
      let hiVals ← (parts.take hi).mapM parseHextet
      let loVals ← (parts.drop (parts.length - lo)).mapM parseHextet
      pure (hextetsVal hiVals * 65536 ^ (skipped + lo) + hextetsVal loVals)
  | none =>
      if parts.length ≠ 8 then none else
      if (parts.headD [' ']).isEmpty then none else
      if (parts.getLastD [' ']).isEmpty then none else
      let vals ← parts.mapM parseHextet
      pure (hextetsVal vals)

/-- Embeds the validity test of `ipaddress.ip_address(s)` on a string:
it succeeds exactly when the string parses as an IPv4 or an IPv6 literal. -/
def ip_address_valid (s : String) : Bool :=
  (parseIPv4 s.toList).isSome || (parseIPv6 s.toList).isSome

/-! ### Address formatting (Python `str(ip)` on address objects) -/

/-- Embeds `str(IPv4Address(n))`: dotted-quad decimal notation. -/
def formatIPv4 (n : ℕ) : String :=
  toString (n / 16777216 % 256) ++ "." ++ toString (n / 65536 % 256) ++ "." ++
    toString (n / 256 % 256) ++ "." ++ toString (n % 256)

/-- Lowercase hexadecimal rendering of one 16-bit IPv6 group without
leading zeros, Python's `'%x' % g`. -/
def hexGroup (g : ℕ) : String := String.mk (Nat.toDigits 16 g)

/-- Leftmost longest run of zero groups: the fold keeps the first position
achieving the maximal run length, as CPython's `_compress_hextets` does.
Returns `(start, length)`. -/
def bestZeroRun (gs : List ℕ) : ℕ × ℕ :=
  (List.range gs.length).foldl
    (fun b i =>
      let l := ((gs.drop i).takeWhile (· = 0)).length
      if b.2 < l then (i, l) else b)
    (0, 0)

/-- Embeds `str(IPv6Address(n))`: eight hexadecimal groups with the
leftmost longest run of two or more zero groups compressed to `::`. -/
def formatIPv6 (n : ℕ) : String :=
  let gs := (List.range 8).map (fun i => n / 65536 ^ (7 - i) % 65536)
  let b := bestZeroRun gs
  if b.2 ≤ 1 then String.intercalate ":" (gs.map hexGroup)
  else
    String.intercalate ":" ((gs.take b.1).map hexGroup) ++ "::" ++
      String.intercalate ":" ((gs.drop (b.1 + b.2)).map hexGroup)

/-! ### Networks: `ipaddress.ip_network(line, strict=False)` and `.hosts()` -/

/-- An IP network as held by Python's `IPv4Network`/`IPv6Network`: the
(masked) network address value and the prefix length. -/
inductive IpNet where
  | v4 (network : ℕ) (prefixlen : ℕ)
  | v6 (network : ℕ) (prefixlen : ℕ)
deriving DecidableEq

/-- Truncating an address to its network address, the effect of
`strict=False` in `ip_network` (host bits are masked away). -/
def maskTrunc (a : ℕ) (hostBits : ℕ) : ℕ := a / 2 ^ hostBits * 2 ^ hostBits

/-- Embeds the prefix-length parser `_prefix_from_prefix_string`: a
nonempty ASCII-digit string whose value is at most `maxLen`.  (Netmask and
hostmask spellings of the prefix are not modelled.) -/
def parsePrefix (cs : List Char) (maxLen : ℕ) : Option ℕ :=
  if cs ≠ [] ∧ cs.all isAsciiDigit ∧ decDigitsVal cs ≤ maxLen then some (decDigitsVal cs) else none

/-- Embeds `ipaddress.ip_network(s, strict=False)` on a string: split on
`/` (at most one allowed), parse the address part as IPv4 then as IPv6,
parse the optional prefix, and mask the host bits. A missing prefix means
a full-length prefix. -/
def parseIpNetwork (s : String) : Option IpNet :=
  let mk : List Char → Option (List Char) → Option IpNet := fun addr pre =>
    match parseIPv4 addr with
    | some a =>
        match pre with
        | none => some (IpNet.v4 a 32)
        | some ds => (parsePrefix ds 32).map (fun p => IpNet.v4 (maskTrunc a (32 - p)) p)
    | none =>
        match parseIPv6 addr with
        | some a =>
            match pre with
            | none => some (IpNet.v6 a 128)
            | some ds => (parsePrefix ds 128).map (fun p => IpNet.v6 (maskTrunc a (128 - p)) p)
        | none => none
  match splitSep '/' s.toList with
  | [addr] => mk addr none
  | [addr, pre] => mk addr (some pre)
  | _ => none

/-- Embeds Python's `net.hosts()`: for IPv4, all addresses except the
network and broadcast addresses, with the RFC 3021 special cases (a /31
yields both addresses, a /32 its single address); for IPv6, all addresses
except the subnet-router anycast (network) address, with /127 yielding
both addresses and /128 its single address.  Hosts are produced in
ascending address order. -/
def hostsList : IpNet → List ℕ
  | .v4 a p =>
      if 31 ≤ p then (List.range (2 ^ (32 - p))).map (a + ·)
      else (List.range (2 ^ (32 - p) - 2)).map (fun i => a + 1 + i)
  | .v6 a p =>
      if 127 ≤ p then (List.range (2 ^ (128 - p))).map (a + ·)
      else (List.range (2 ^ (128 - p) - 1)).map (fun i => a + 1 + i)

/-- Usable host count of a network in the sense of the design document
(network/broadcast excluded, per standard host enumeration).  Stated from
the specification as the closed-form count, to be compared with the length
of the enumeration the code performs. -/
def usableHostCount : IpNet → ℕ
  | .v4 _ p => if 31 ≤ p then 2 ^ (32 - p) else 2 ^ (32 - p) - 2
  | .v6 _ p => if 127 ≤ p then 2 ^ (128 - p) else 2 ^ (128 - p) - 1

/-- Embeds the CIDR branch of `parse_targets` (ping.py lines 113-121):
for an IPv6 network, `net.hosts()` if `ipv6_sample_limit == 0` else
`list(net.hosts())[:ipv6_sample_limit]`; for IPv4 always the full
`net.hosts()`; each host is added as `(str(ip), default_port)`. -/
def expandNetwork (net : IpNet) (ipv6_sample_limit : ℕ) (default_port : ℤ) : List (String × ℤ) :=
  match net with
  | .v4 _ _ => (hostsList net).map (fun h => (formatIPv4 h, default_port))
  | .v6 _ _ =>
      let sampled := if ipv6_sample_limit = 0 then hostsList net else (hostsList net).take ipv6_sample_limit
      sampled.map (fun h => (formatIPv6 h, default_port))

/-! ### The compiled IPv6-bracket pattern (ping.py line 96)

The script compiles `r'^$$([0-9a-fA-F:]+)$$(?::(\d+))?$'` and applies it
with `pattern.match(line)` to every stripped line.  Note the pattern text
really contains `$$` (two end-of-string assertions), not `\[`/`\]`: the
following functions implement exactly that pattern with Python `re`
semantics (`$` is a zero-width assertion matching at the end of the
string, or just before a single trailing newline; `+` and the optional
group are greedy with backtracking). -/

/-- Python `re` semantics of the `$` assertion (no `MULTILINE`): position
`i` is at the end of the string, or just before a newline that ends the
string. -/
def reDollar (cs : List Char) (i : ℕ) : Bool :=
  i == cs.length || (i + 1 == cs.length && cs.getLast? == some '\n')

/-- Character class `[0-9a-fA-F:]` of the compiled pattern. -/
def isHexColon (c : Char) : Bool := isAsciiHexDigit c || c == ':'

/-- Greedy match of `(\d+)` starting at position `i` followed by the final
`$`: tries run lengths from `d` down to 1 and returns the digits captured
by group 2. -/
def tryDigits (cs : List Char) (i : ℕ) : ℕ → Option (List Char)
  | 0 => none
  | d + 1 =>
      if reDollar cs (i + (d + 1)) then some ((cs.drop i).take (d + 1))
      else tryDigits cs i d

/-- Match of the pattern suffix `(?::(\d+))?$` at position `i`: greedily
try the optional `:`-digits group first, else require `$` directly.
Returns group 2 when the optional group participated. -/
def matchOptPort (cs : List Char) (i : ℕ) : Option (Option (List Char)) :=
  let withPort : Option (Option (List Char)) :=
    if cs[i]? == some ':' then
      (tryDigits cs (i + 1) (((cs.drop (i + 1)).takeWhile isAsciiDigit).length)).map some
    else none
  match withPort with
  | some r => some r
  | none => if reDollar cs i then some none else none

/-- Backtracking over the greedy group 1 `[0-9a-fA-F:]+`: try the run
length `k` (longest first), requiring the two `$` assertions after it and
then the pattern suffix. -/
def tryGroup1 (cs : List Char) : ℕ → Option (List Char × Option (List Char))
  | 0 => none
  | k + 1 =>
      if reDollar cs (k + 1) && reDollar cs (k + 1) then
        match matchOptPort cs (k + 1) with
        | some p => some (cs.take (k + 1), p)
        | none => tryGroup1 cs k
      else tryGroup1 cs k

/-- Embeds `ipv6_port_pattern.match(line)` for the compiled pattern
`r'^$$([0-9a-fA-F:]+)$$(?::(\d+))?$'` (ping.py line 96): anchored at the
start, two `$` assertions, group 1, two more `$` assertions, the optional
port group, final `$`.  Returns `(group 1, group 2)` on a match.  Because
`$` can only hold at position 0 of an empty string or of the string
`"\n"`, and group 1 then still needs a character, this pattern matches no
stripped nonempty line: the bracketed-IPv6 branch of `parse_targets` is
unreachable. -/
def ipv6PortMatch (cs : List Char) : Option (List Char × Option (List Char)) :=
  if reDollar cs 0 && reDollar cs 0 then
    tryGroup1 cs ((cs.takeWhile isHexColon).length)
  else none

/-! ### Probe outcomes and the three probers (ping.py lines 18-83)

Each prober returns a Python tuple `(label, latency_or_None, status)`;
`ProbeResult` embeds that tuple.  Wall-clock measurement and socket
behaviour are abstracted into an explicit event argument. -/

/-- The tuple `(label, latency, status)` a prober returns: `label` is the
formatted target string, `latency` the optional measured latency in
milliseconds, `status` one of `"Success"`, `"Timeout"`, an `"Error: ..."`
string, or `"Unknown mode"`. -/
structure ProbeResult where
  label : String
  latency : Option ℚ
  status : String
deriving DecidableEq, Repr

/-- Embeds Python's `round(x, 2)` on the measured latency: rounding to two
decimal places.  (CPython rounds binary floats half-to-even; on the exact
rationals of this model we use mathematical rounding, which agrees except
at exact half-cent ties.) -/
def round2 (x : ℚ) : ℚ := (round (x * 100) : ℤ) / 100

/-- What the socket layer did during a UDP or ICMP probe: `completes e`
means `sendto` and the `recvfrom` wait finished (either a reply arrived or
`socket.timeout` was swallowed by the inner `except`) with a measured
elapsed time of `e` milliseconds; `raises m` means some call raised an
exception rendered as `m`, caught by the outer handler. -/
inductive SockEvent where
  | completes (elapsed : ℚ)
  | raises (msg : String)
deriving DecidableEq

/-- What the socket layer did during a TCP probe: `connects e` means the
`connect` completed in `e` milliseconds; `timesOut` means `connect` raised
`socket.timeout`; `raises m` means any other exception was raised. -/
inductive TcpEvent where
  | connects (elapsed : ℚ)
  | timesOut
  | raises (msg : String)
deriving DecidableEq

/-- Message of the `ValueError` raised by `ipaddress.ip_address` on an
invalid address string, as caught by the probers' generic handler. -/
def addrValueError (ip : String) : String :=
  ip ++ " does not appear to be an IPv4 or IPv6 address"

/-- Message of the `socket.gaierror` raised when an `AF_INET` socket is
asked to send to an IPv6 literal destination. -/
def gaiFamilyError : String := "Address family for hostname not supported"

/-- Elapsed times delivered by an event are nonnegative (wall-clock reads
are taken in order).  Hypothesis used for the nonnegativity claims. -/
def SockEvent.nonnegElapsed : SockEvent → Prop
  | .completes e => 0 ≤ e
  | .raises _ => True

/-- Elapsed times delivered by a TCP event are nonnegative. -/
def TcpEvent.nonnegElapsed : TcpEvent → Prop
  | .connects e => 0 ≤ e
  | _ => True

/-- Embeds `test_udp_latency(ip, port)` (ping.py lines 18-36): validate the
address with `ipaddress.ip_address` (a `ValueError` is caught by the
generic `except` and reported as an error outcome), pick the matching
address family, send an empty datagram and wait; a reply or a swallowed
`socket.timeout` both yield the measured elapsed time, classified
`"Timeout"` at or above `TIMEOUT_THRESHOLD_MS` and `"Success"` below it;
any other exception yields an error outcome with no latency. -/
def test_udp_latency (ip : String) (port : ℤ) (ev : SockEvent) : ProbeResult :=
  if ¬ ip_address_valid ip then
    ⟨ip ++ ":" ++ toString port, none, "Error: " ++ addrValueError ip⟩
  else
    match ev with
    | .raises m => ⟨ip ++ ":" ++ toString port, none, "Error: " ++ m⟩
    | .completes e =>
        if TIMEOUT_THRESHOLD_MS ≤ e then ⟨ip ++ ":" ++ toString port, some (round2 e), "Timeout"⟩
        else ⟨ip ++ ":" ++ toString port, some (round2 e), "Success"⟩

/-- Embeds `test_tcp_latency(ip, port)` (ping.py lines 38-52): validate the
address, pick the family, attempt a full `connect` under the timeout.  A
completed connect is `"Success"` with the measured latency; a
`socket.timeout` is `"Timeout"` with latency `None`; any other exception
is an error outcome with latency `None`. -/
def test_tcp_latency (ip : String) (port : ℤ) (ev : TcpEvent) : ProbeResult :=
  if ¬ ip_address_valid ip then
    ⟨ip ++ ":" ++ toString port, none, "Error: " ++ addrValueError ip⟩
  else
    match ev with
    | .connects e => ⟨ip ++ ":" ++ toString port, some (round2 e), "Success"⟩
    | .timesOut => ⟨ip ++ ":" ++ toString port, none, "Timeout"⟩
    | .raises m => ⟨ip ++ ":" ++ toString port, none, "Error: " ++ m⟩

/-- Embeds `test_ping_latency(ip)` (ping.py lines 54-71): the prober always
opens an `AF_INET` (IPv4) raw ICMP socket, with no address-family dispatch
and no `ip_address` validation.  `raises m` covers exceptions such as a
denied raw-socket creation.  When the socket calls would otherwise
complete, sending to an IPv6 literal destination through the IPv4 socket
deterministically raises a `socket.gaierror`, reported as an error
outcome; otherwise the measured elapsed time is classified with the same
threshold rule as UDP.  The label is the bare address, without a port. -/
def test_ping_latency (ip : String) (ev : SockEvent) : ProbeResult :=
  match ev with
  | .raises m => ⟨ip, none, "Error: " ++ m⟩
  | .completes e =>
      if (parseIPv6 ip.toList).isSome then ⟨ip, none, "Error: " ++ gaiFamilyError⟩
      else if TIMEOUT_THRESHOLD_MS ≤ e then ⟨ip, some (round2 e), "Timeout"⟩
      else ⟨ip, some (round2 e), "Success"⟩

/-- Embeds `run_test(ip, mode, port, verbose)` (ping.py lines 73-83):
dispatch on the mode string; an unknown mode yields `(ip, None, "Unknown
mode")`.  The three event arguments describe the socket layer for each
strategy; only the selected strategy's event is consulted.  The `verbose`
progress print has no effect on the outcome. -/
def run_test (ip : String) (mode : String) (port : ℤ)
    (udpEv : SockEvent) (tcpEv : TcpEvent) (pingEv : SockEvent) : ProbeResult :=
  if mode = "udp" then test_udp_latency ip port udpEv
  else if mode = "tcp" then test_tcp_latency ip port tcpEv
  else if mode = "ping" then test_ping_latency ip pingEv
  else ⟨ip, none, "Unknown mode"⟩

/-! ### Domain resolution (ping.py lines 85-92) and the global socket state -/

/-- What `socket.getaddrinfo(domain, None, AF_UNSPEC, SOCK_STREAM)` did:
returned a list of addresses, raised one of the two caught exceptions
(`socket.gaierror` or `socket.timeout`), or raised some other exception
(e.g. `UnicodeError` on an overlong label) that propagates. -/
inductive DnsResult where
  | ok (addrs : List String)
  | gaiOrTimeout
  | raise (msg : String)

/-- The process-wide socket configuration the script can observe or
mutate: the global default socket timeout set by
`socket.setdefaulttimeout` (`none` is the initial "no timeout" state). -/
structure SocketGlobals where
  defaultTimeout : Option ℚ
deriving DecidableEq

/-- Value of `resolve_domain(domain, default_port)` (ping.py lines 85-92)
as seen by its caller: on a successful lookup, each resolved address is
paired with `default_port`; `socket.gaierror` and `socket.timeout` are
caught and yield an empty list; any other exception propagates (modelled
as `Except.error`). -/
def resolve_domain_result (dns : String → DnsResult) (domain : String) (default_port : ℤ) :
    Except String (List (String × ℤ)) :=
  match dns domain with
  | .ok addrs => .ok (addrs.map (fun a => (a, default_port)))
  | .gaiOrTimeout => .ok []
  | .raise m => .error m

/-- Embeds `resolve_domain` with the process-global socket state threaded
explicitly: the function first executes
`socket.setdefaulttimeout(DNS_TIMEOUT)`, unconditionally replacing the
process-wide default socket timeout (it is never restored), and then
performs the lookup. The final global state is therefore
`⟨some DNS_TIMEOUT⟩` on every path, including the exception paths. -/
def resolve_domain (_g : SocketGlobals) (dns : String → DnsResult) (domain : String)
    (default_port : ℤ) : Except String (List (String × ℤ)) × SocketGlobals :=
  let g2 : SocketGlobals := ⟨some DNS_TIMEOUT⟩
  (resolve_domain_result dns domain default_port, g2)

/-! ### Target resolution: `parse_targets` (ping.py lines 94-145) -/

/-- Message of the `ValueError` raised by `int()` on a non-numeric string,
as printed by the per-line handler. -/
def intValueError (s : List Char) : String :=
  "invalid literal for int with base 10: " ++ String.mk s

/-- Message of the `ValueError` raised by `ipaddress.ip_network` on an
unparsable network string. -/
def netValueError (line : String) : String :=
  line ++ " does not appear to be an IPv4 or IPv6 network"

/-- Targets contributed by one input line of `parse_targets` (the body of
the `for` loop, ping.py lines 98-144): strip the line; skip blank and
`#`-comment lines; then try, in order, the (unreachable) bracketed-IPv6
pattern, the CIDR branch for lines containing `/`, the single-colon
`addr:port` branch, the bare-address branch, and finally domain
resolution.  `Except.error` is the exception caught by the per-line
handler (which logs and skips the line); `Except.ok ts` are the pairs the
line adds to the target set.  Exceptions can only arise before any pair of
the line is added, so a line contributes either all its pairs or none. -/
def lineTargets (dns : String → DnsResult) (ipv6_sample_limit : ℕ) (default_port : ℤ)
    (raw : String) : Except String (List (String × ℤ)) :=
  let cs := pyStrip raw.toList
  if cs.isEmpty || cs.head? == some '#' then .ok []
  else
    let line := String.mk cs
    match ipv6PortMatch cs with
    | some (ipcs, portGroup) =>
        let p : ℤ := match portGroup with
          | some ds => (decDigitsVal ds : ℤ)
          | none => default_port
        .ok [(String.mk ipcs, p)]
    | none =>
      if '/' ∈ cs then
        match parseIpNetwork line with
        | some net => .ok (expandNetwork net ipv6_sample_limit default_port)
        | none => .error (netValueError line)
      else if ':' ∈ cs ∧ cs.count ':' = 1 then
        match splitSep ':' cs with
        | [ipcs, portcs] =>
            match pyInt portcs with
            | some p => .ok [(String.mk ipcs, p)]
            | none => .error (intValueError portcs)
        | _ => .error "not enough values to unpack"
      else if ip_address_valid line then .ok [(line, default_port)]
      else
        match resolve_domain_result dns line default_port with
        | .ok resolved => .ok resolved
        | .error m => .error m

/-- Insertion into the accumulated target collection with the set
semantics of Python's `targets.add((ip, port))`: a pair already present is
not added again.  (Python's `set` stores elements in unspecified order;
the model fixes first-insertion order, which is immaterial to every
property stated below.) -/
def addTarget (acc : List (String × ℤ)) (t : String × ℤ) : List (String × ℤ) :=
  if t ∈ acc then acc else acc ++ [t]

/-- Folding a line's contributed pairs into the accumulated target set. -/
def addTargets (acc : List (String × ℤ)) (ts : List (String × ℤ)) : List (String × ℤ) :=
  ts.foldl addTarget acc

/-- The line loop of `parse_targets`: process each line in order,
accumulating targets; a line whose processing raises is skipped (its
error is logged) and the loop continues with the remaining lines. -/
def processLines (dns : String → DnsResult) (ipv6_sample_limit : ℕ) (default_port : ℤ) :
    List (String × ℤ) → List String → List (String × ℤ)
  | acc, [] => acc
  | acc, l :: ls =>
      processLines dns ipv6_sample_limit default_port
        (match lineTargets dns ipv6_sample_limit default_port l with
         | .ok ts => addTargets acc ts
         | .error _ => acc) ls

/-- Embeds `parse_targets(lines, ipv6_sample_limit=10, default_port=443)`
(ping.py lines 94-145): the deduplicated targets accumulated over all
lines, returned as a list (`return list(targets)`). -/
def parse_targets (dns : String → DnsResult) (lines : List String)
    (ipv6_sample_limit : ℕ) (default_port : ℤ) : List (String × ℤ) :=
  processLines dns ipv6_sample_limit default_port [] lines

/-! ### The CLI configuration and main's resolution call (ping.py 158-199) -/

/-- The argparse namespace of `main` (ping.py lines 159-170).  Declared
defaults: `port` 443, `top` 10, `output` "result.csv", `failed`
"failed.csv", `json`/`min`/`max` absent, `verbose` false, `ipv6_limit`
10. -/
structure Args where
  mode : String
  port : ℤ
  top : ℕ
  output : String
  failed : String
  json : Option String
  min : Option ℚ
  max : Option ℚ
  verbose : Bool
  ipv6_limit : ℕ

/-- Embeds main's resolution call (ping.py line 175):
`parse_targets(lines, ipv6_sample_limit=args.ipv6_limit)`.  The
`default_port` keyword is not passed, so it stays at its declared default
of 443; `args.port` is never read anywhere in `main`. -/
def main_targets (dns : String → DnsResult) (args : Args) (lines : List String) :
    List (String × ℤ) :=
  parse_targets dns lines args.ipv6_limit 443

/-! ### Result aggregation (ping.py lines 193-199) -/

/-- The success filter of main (ping.py lines 193-197): status equal to
`"Success"`, and when a `min` (resp. `max`) bound is configured the
latency must be present and at least (resp. at most) the bound. -/
def success_filter (minL maxL : Option ℚ) (r : ProbeResult) : Bool :=
  r.status == "Success"
  && (match minL with
      | none => true
      | some m => match r.latency with
        | none => false
        | some v => decide (m ≤ v))
  && (match maxL with
      | none => true
      | some mx => match r.latency with
        | none => false
        | some v => decide (v ≤ mx))

/-- The filtered success list (ping.py lines 193-197). -/
def success_results (results : List ProbeResult) (minL maxL : Option ℚ) : List ProbeResult :=
  results.filter (success_filter minL maxL)

/-- Sort key of `sorted(success_results, key=lambda x: x[1])`: the latency
entry of the tuple.  Every filtered success produced by the probers
carries a latency; `getD 0` supplies a default on the `None` case, on
which CPython's comparison would instead raise `TypeError`. -/
def latKey (r : ProbeResult) : ℚ := r.latency.getD 0

/-- The ordering used to sort successes: nondecreasing latency. -/
def latLe (a b : ProbeResult) : Prop := latKey a ≤ latKey b

instance : DecidableRel latLe := fun a b => inferInstanceAs (Decidable (latKey a ≤ latKey b))

instance : IsTotal ProbeResult latLe := ⟨fun a b => le_total (latKey a) (latKey b)⟩

instance : IsTrans ProbeResult latLe := ⟨fun _ _ _ h h2 => le_trans h h2⟩

/-- Embeds `sorted(success_results, key=lambda x: x[1])[:args.top]`
(ping.py line 198).  CPython's `sorted` is stable; for a total preorder on
the key a stable sort is unique as a function, and insertion sort with
`latLe` computes it (stability is proved below as filter invariance). -/
def ranked_success (results : List ProbeResult) (minL maxL : Option ℚ) (top : ℕ) :
    List ProbeResult :=
  ((success_results results minL maxL).insertionSort latLe).take top

/-- Embeds `failed_results = [r for r in results if r[2] != "Success"]`
(ping.py line 199). -/
def failed_results (results : List ProbeResult) : List ProbeResult :=
  results.filter (fun r => r.status != "Success")

/-! ### Basic facts used by several claims -/

/-- A fixed DNS oracle for concrete evaluations: every lookup fails with
one of the caught exceptions (the behaviour of `getaddrinfo` on a
non-resolvable string such as a bracketed address literal). -/
def noDns : String → DnsResult := fun _ => DnsResult.gaiOrTimeout

/-- Rounding to two decimals preserves nonnegativity. -/
theorem round2_nonneg {x : ℚ} (hx : 0 ≤ x) : 0 ≤ round2 x := by
  unfold round2
  apply div_nonneg _ (by norm_num)
  have h : (0 : ℤ) ≤ round (x * 100) := by
    rw [round_eq]
    exact Int.floor_nonneg.2 (by positivity)
  exact_mod_cast h

/-- The first character of an appended string is that of its first,
nonempty component. -/
theorem data_head_append (pre m : String) (c : Char) (hd : pre.data.head? = some c) :
    (pre ++ m).data.head? = some c := by
  rw [String.data_append]
  cases hp : pre.data with
  | nil => rw [hp] at hd; exact absurd hd (by simp)
  | cons a t => rw [hp] at hd; simpa using hd

/-- An error status can never equal the literal `"Success"`. -/
theorem error_status_ne_success (m : String) : "Error: " ++ m ≠ "Success" := by
  intro h
  have h1 := data_head_append "Error: " m 'E' rfl
  rw [h] at h1
  exact absurd h1 (by decide)

/-- An error status can never equal the literal `"Timeout"`. -/
theorem error_status_ne_timeout (m : String) : "Error: " ++ m ≠ "Timeout" := by
  intro h
  have h1 := data_head_append "Error: " m 'E' rfl
  rw [h] at h1
  exact absurd h1 (by decide)

/-- Latency presence for a UDP outcome coincides with a `"Success"` or
`"Timeout"` status, over every socket event. -/
theorem udp_latency_iff (ip : String) (port : ℤ) (ev : SockEvent) :
    (test_udp_latency ip port ev).latency ≠ none ↔
      (test_udp_latency ip port ev).status = "Success" ∨
        (test_udp_latency ip port ev).status = "Timeout" := by
  unfold test_udp_latency
  by_cases hv : ip_address_valid ip = true
  · cases ev with
    | completes e =>
        by_cases ht : TIMEOUT_THRESHOLD_MS ≤ e
        · simp [hv, ht]
        · simp [hv, ht]
    | raises m => simp [hv, error_status_ne_success m, error_status_ne_timeout m]
  · simp [hv, error_status_ne_success (addrValueError ip), error_status_ne_timeout (addrValueError ip)]

/-- Latency presence for an ICMP outcome coincides with a `"Success"` or
`"Timeout"` status, over every socket event. -/
theorem ping_latency_iff (ip : String) (ev : SockEvent) :
    (test_ping_latency ip ev).latency ≠ none ↔
      (test_ping_latency ip ev).status = "Success" ∨
        (test_ping_latency ip ev).status = "Timeout" := by
  unfold test_ping_latency
  simp only [String.toList]
  cases ev with
  | completes e =>
      by_cases h6 : (parseIPv6 ip.data).isSome = true
      · simp [h6, error_status_ne_success gaiFamilyError, error_status_ne_timeout gaiFamilyError]
      · by_cases ht : TIMEOUT_THRESHOLD_MS ≤ e
        · simp [h6, ht]
        · simp [h6, ht]
  | raises m => simp [error_status_ne_success m, error_status_ne_timeout m]

/-- Latency presence for a TCP outcome coincides with a `"Success"` status
alone: a TCP `"Timeout"` outcome carries no latency. -/
theorem tcp_latency_iff (ip : String) (port : ℤ) (ev : TcpEvent) :
    (test_tcp_latency ip port ev).latency ≠ none ↔
      (test_tcp_latency ip port ev).status = "Success" := by
  unfold test_tcp_latency
  by_cases hv : ip_address_valid ip = true
  · cases ev with
    | connects e => simp [hv]
    | timesOut => simp [hv]
    | raises m => simp [hv, error_status_ne_success m]
  · simp [hv, error_status_ne_success (addrValueError ip)]

/-- Every latency a UDP outcome carries is nonnegative, given nonnegative
measured elapsed times. -/
theorem udp_latency_nonneg (ip : String) (port : ℤ) (ev : SockEvent)
    (h : ev.nonnegElapsed) : ∀ v, (test_udp_latency ip port ev).latency = some v → 0 ≤ v := by
  intro v hv
  unfold test_udp_latency at hv
  by_cases hva : ip_address_valid ip = true
  · cases ev with
    | completes e =>
        by_cases ht : TIMEOUT_THRESHOLD_MS ≤ e
        · simp [hva, ht] at hv
          exact hv ▸ round2_nonneg h
        · simp [hva, ht] at hv
          exact hv ▸ round2_nonneg h
    | raises m => simp [hva] at hv
  · simp [hva] at hv

/-- Every latency an ICMP outcome carries is nonnegative, given
nonnegative measured elapsed times. -/
theorem ping_latency_nonneg (ip : String) (ev : SockEvent)
    (h : ev.nonnegElapsed) : ∀ v, (test_ping_latency ip ev).latency = some v → 0 ≤ v := by
  intro v hv
  unfold test_ping_latency at hv
  simp only [String.toList] at hv
  cases ev with
  | completes e =>
      by_cases h6 : (parseIPv6 ip.data).isSome = true
      · simp [h6] at hv
      · by_cases ht : TIMEOUT_THRESHOLD_MS ≤ e
        · simp [h6, ht] at hv
          exact hv ▸ round2_nonneg h
        · simp [h6, ht] at hv
          exact hv ▸ round2_nonneg h
  | raises m => simp at hv

/-- Every latency a TCP outcome carries is nonnegative, given nonnegative
measured elapsed times. -/
theorem tcp_latency_nonneg (ip : String) (port : ℤ) (ev : TcpEvent)
    (h : ev.nonnegElapsed) : ∀ v, (test_tcp_latency ip port ev).latency = some v → 0 ≤ v := by
  intro v hv
  unfold test_tcp_latency at hv
  by_cases hva : ip_address_valid ip = true
  · cases ev with
    | connects e =>
        simp [hva] at hv
        exact hv ▸ round2_nonneg h
    | timesOut => simp [hva] at hv
    | raises m => simp [hva] at hv
  · simp [hva] at hv

/-- An error-status UDP outcome carries no latency. -/
theorem udp_error_no_latency (ip : String) (port : ℤ) (ev : SockEvent) :
    ∀ m, (test_udp_latency ip port ev).status = "Error: " ++ m →
      (test_udp_latency ip port ev).latency = none := by
  intro m hm
  unfold test_udp_latency at hm ⊢
  by_cases hv : ip_address_valid ip = true
  · cases ev with
    | completes e =>
        by_cases ht : TIMEOUT_THRESHOLD_MS ≤ e
        · simp [hv, ht] at hm
          exact absurd hm.symm (error_status_ne_timeout m)
        · simp [hv, ht] at hm
          exact absurd hm.symm (error_status_ne_success m)
    | raises msg => simp [hv]
  · simp [hv]

/-- An error-status ICMP outcome carries no latency. -/
theorem ping_error_no_latency (ip : String) (ev : SockEvent) :
    ∀ m, (test_ping_latency ip ev).status = "Error: " ++ m →
      (test_ping_latency ip ev).latency = none := by
  intro m hm
  unfold test_ping_latency at hm ⊢
  simp only [String.toList] at hm ⊢
  cases ev with
  | completes e =>
      by_cases h6 : (parseIPv6 ip.data).isSome = true
      · simp [h6]
      · by_cases ht : TIMEOUT_THRESHOLD_MS ≤ e
        · simp [h6, ht] at hm
          exact absurd hm.symm (error_status_ne_timeout m)
        · simp [h6, ht] at hm
          exact absurd hm.symm (error_status_ne_success m)
  | raises msg => simp
 
/-- An error-status TCP outcome carries no latency. -/
theorem tcp_error_no_latency (ip : String) (port : ℤ) (ev : TcpEvent) :
    ∀ m, (test_tcp_latency ip port ev).status = "Error: " ++ m →
      (test_tcp_latency ip port ev).latency = none := by
  intro m hm
  unfold test_tcp_latency at hm ⊢
  by_cases hv : ip_address_valid ip = true
  · cases ev with
    | connects e =>
        simp [hv] at hm
        exact absurd hm.symm (error_status_ne_success m)
    | timesOut => simp [hv]
    | raises msg => simp [hv]
  · simp [hv]

/-- C1, counterexample: a TCP probe that raises `socket.timeout` yields the
outcome `("1.1.1.1:443", None, "Timeout")`, whose status is `"Timeout"`
while its `latency_ms` is absent, contradicting the claimed equivalence
between latency presence and a Success-or-Timeout status. -/
theorem c1_latency_presence_counterexample :
    ¬ ((test_tcp_latency "1.1.1.1" 443 TcpEvent.timesOut).latency ≠ none ↔
        (test_tcp_latency "1.1.1.1" 443 TcpEvent.timesOut).status = "Success" ∨
          (test_tcp_latency "1.1.1.1" 443 TcpEvent.timesOut).status = "Timeout") := by
  decide

/-- C1 (amended): for every UDP or ICMP probe outcome, `latency_ms` is
present if and only if the status is `"Success"` or `"Timeout"`; for every
TCP probe outcome, `latency_ms` is present if and only if the status is
`"Success"`, and in particular a TCP `"Timeout"` outcome carries no
latency.  Whenever a latency is present it is nonnegative (elapsed
measurements being nonnegative), and an error status always comes with an
absent latency, for all three probers. -/
theorem c1_latency_presence_amended (ip : String) (port : ℤ) (evU evP : SockEvent)
    (evT : TcpEvent) (hU : evU.nonnegElapsed) (hP : evP.nonnegElapsed) (hT : evT.nonnegElapsed) :
    ((test_udp_latency ip port evU).latency ≠ none ↔
        (test_udp_latency ip port evU).status = "Success" ∨
          (test_udp_latency ip port evU).status = "Timeout") ∧
    ((test_ping_latency ip evP).latency ≠ none ↔
        (test_ping_latency ip evP).status = "Success" ∨
          (test_ping_latency ip evP).status = "Timeout") ∧
    ((test_tcp_latency ip port evT).latency ≠ none ↔
        (test_tcp_latency ip port evT).status = "Success") ∧
    ((test_tcp_latency ip port evT).status = "Timeout" →
        (test_tcp_latency ip port evT).latency = none) ∧
    (∀ v, (test_udp_latency ip port evU).latency = some v → 0 ≤ v) ∧
    (∀ v, (test_ping_latency ip evP).latency = some v → 0 ≤ v) ∧
    (∀ v, (test_tcp_latency ip port evT).latency = some v → 0 ≤ v) ∧
    (∀ m, (test_udp_latency ip port evU).status = "Error: " ++ m →
        (test_udp_latency ip port evU).latency = none) ∧
    (∀ m, (test_ping_latency ip evP).status = "Error: " ++ m →
        (test_ping_latency ip evP).latency = none) ∧
    (∀ m, (test_tcp_latency ip port evT).status = "Error: " ++ m →
        (test_tcp_latency ip port evT).latency = none) := by
  refine ⟨udp_latency_iff ip port evU, ping_latency_iff ip evP, tcp_latency_iff ip port evT,
    ?_, udp_latency_nonneg ip port evU hU, ping_latency_nonneg ip evP hP,
    tcp_latency_nonneg ip port evT hT, udp_error_no_latency ip port evU,
    ping_error_no_latency ip evP, tcp_error_no_latency ip port evT⟩
  intro hTm
  by_contra hne
  have hs := (tcp_latency_iff ip port evT).mp hne
  rw [hTm] at hs
  exact absurd hs (by decide)

/-- C1 witness: the amended statement instantiated at the target
`1.1.1.1:443` with a UDP/ICMP exchange measured at 5 ms and a TCP connect
timeout. -/
theorem c1_latency_presence_witness :
    SockEvent.nonnegElapsed (SockEvent.completes 5) ∧
    TcpEvent.nonnegElapsed TcpEvent.timesOut ∧
    ((test_udp_latency "1.1.1.1" 443 (SockEvent.completes 5)).latency ≠ none ↔
        (test_udp_latency "1.1.1.1" 443 (SockEvent.completes 5)).status = "Success" ∨
          (test_udp_latency "1.1.1.1" 443 (SockEvent.completes 5)).status = "Timeout") :=
  ⟨show (0 : ℚ) ≤ 5 by norm_num, trivial,
    (c1_latency_presence_amended "1.1.1.1" 443 (SockEvent.completes 5) (SockEvent.completes 5)
      TcpEvent.timesOut (show (0 : ℚ) ≤ 5 by norm_num) (show (0 : ℚ) ≤ 5 by norm_num) trivial).1⟩

/-- C7 (confirmed): a UDP probe that completes without raising (valid
address, measured exchange) reports the measured elapsed time rounded to
two decimals, and is classified `"Timeout"` exactly when the elapsed time
is at or above `TIMEOUT_SECONDS * 1000 - 10` milliseconds (the configured
timeout minus 10 ms), `"Success"` otherwise — including the no-reply case,
which reaches this same classification with its elapsed wait. -/
theorem c7_udp_threshold (ip : String) (port : ℤ) (e : ℚ)
    (hv : ip_address_valid ip = true) :
    (test_udp_latency ip port (SockEvent.completes e)).latency = some (round2 e) ∧
    ((test_udp_latency ip port (SockEvent.completes e)).status = "Timeout" ↔
      TIMEOUT_THRESHOLD_MS ≤ e) ∧
    ((test_udp_latency ip port (SockEvent.completes e)).status = "Success" ↔
      e < TIMEOUT_THRESHOLD_MS) ∧
    TIMEOUT_THRESHOLD_MS = TIMEOUT_SECONDS * 1000 - 10 := by
  unfold test_udp_latency
  by_cases ht : TIMEOUT_THRESHOLD_MS ≤ e
  · exact ⟨by simp [hv, ht], by simp [hv, ht], by simp [hv, ht, not_lt.mpr ht], rfl⟩
  · exact ⟨by simp [hv, ht], by simp [hv, ht], by simp [hv, ht, not_le.mp ht], rfl⟩

/-- C7 witness: the target `1.1.1.1:443` with a 100 ms measured exchange is
reported as a 100 ms `"Success"`. -/
theorem c7_udp_threshold_witness :
    ip_address_valid "1.1.1.1" = true ∧
    (test_udp_latency "1.1.1.1" 443 (SockEvent.completes 100)).latency = some (round2 100) ∧
    ((test_udp_latency "1.1.1.1" 443 (SockEvent.completes 100)).status = "Success" ↔
      (100 : ℚ) < TIMEOUT_THRESHOLD_MS) :=
  ⟨by decide, (c7_udp_threshold "1.1.1.1" 443 100 (by decide)).1,
    (c7_udp_threshold "1.1.1.1" 443 100 (by decide)).2.2.1⟩

/-- Every UDP outcome is labelled `ip:port`, whatever the probe did. -/
theorem udp_label (ip : String) (port : ℤ) (ev : SockEvent) :
    (test_udp_latency ip port ev).label = ip ++ ":" ++ toString port := by
  cases ev with
  | completes e => simp only [test_udp_latency]; split_ifs <;> rfl
  | raises m => simp only [test_udp_latency]; split_ifs <;> rfl

/-- Every TCP outcome is labelled `ip:port`, whatever the probe did. -/
theorem tcp_label (ip : String) (port : ℤ) (ev : TcpEvent) :
    (test_tcp_latency ip port ev).label = ip ++ ":" ++ toString port := by
  cases ev with
  | connects e => simp only [test_tcp_latency]; split_ifs <;> rfl
  | timesOut => simp only [test_tcp_latency]; split_ifs <;> rfl
  | raises m => simp only [test_tcp_latency]; split_ifs <;> rfl

/-- Every ICMP outcome is labelled by the bare address, whatever the probe
did. -/
theorem ping_label (ip : String) (ev : SockEvent) :
    (test_ping_latency ip ev).label = ip := by
  cases ev with
  | completes e => simp only [test_ping_latency]; split_ifs <;> rfl
  | raises m => rfl

/-- C10 (confirmed): the ICMP prober opens an IPv4 raw socket with no
family dispatch, so probing an IPv6-literal target in ping mode always
produces an error outcome with absent latency, whatever the socket layer
does; and the ICMP outcome label is the bare address while the UDP and TCP
labels are `address:port`. -/
theorem c10_ping_ipv6_error (ip : String) (port : ℤ) (evP : SockEvent) (evT : TcpEvent)
    (h6 : (parseIPv6 ip.toList).isSome = true) :
    (test_ping_latency ip evP).latency = none ∧
    (∃ m, (test_ping_latency ip evP).status = "Error: " ++ m) ∧
    (test_ping_latency ip evP).label = ip ∧
    (test_udp_latency ip port evP).label = ip ++ ":" ++ toString port ∧
    (test_tcp_latency ip port evT).label = ip ++ ":" ++ toString port := by
  simp only [String.toList] at h6
  refine ⟨?_, ?_, ping_label ip evP, udp_label ip port evP, tcp_label ip port evT⟩
  · cases evP with
    | completes e => unfold test_ping_latency; simp [String.toList, h6]
    | raises m => rfl
  · cases evP with
    | completes e =>
        refine ⟨gaiFamilyError, ?_⟩
        unfold test_ping_latency
        simp [String.toList, h6]
    | raises m => exact ⟨m, rfl⟩

/-- C10 witness: the IPv6 target `2001:db8::1`, probed in ping mode with a
completing socket exchange, still yields an error outcome with no latency
and a bare-address label. -/
theorem c10_ping_ipv6_error_witness :
    (parseIPv6 ("2001:db8::1").toList).isSome = true ∧
    (test_ping_latency "2001:db8::1" (SockEvent.completes 5)).latency = none ∧
    (test_ping_latency "2001:db8::1" (SockEvent.completes 5)).label = "2001:db8::1" :=
  ⟨by decide,
    (c10_ping_ipv6_error "2001:db8::1" 443 (SockEvent.completes 5) TcpEvent.timesOut
      (by decide)).1,
    (c10_ping_ipv6_error "2001:db8::1" 443 (SockEvent.completes 5) TcpEvent.timesOut
      (by decide)).2.2.1⟩

/-- C9, counterexample: starting from a process with no default socket
timeout, one call to `resolve_domain` leaves the global socket
configuration changed — `socket.setdefaulttimeout(DNS_TIMEOUT)` is
executed and never restored, so later operations observe the altered
default. -/
theorem c9_frame_counterexample :
    (resolve_domain ⟨none⟩ noDns "example.com" 443).2 ≠ ⟨none⟩ := by
  decide

/-- C9 (amended): `resolve_domain` unconditionally overwrites the
process-wide default socket timeout with `DNS_TIMEOUT` on every path
(success, caught failure, or propagated exception), and this is the only
effect it has beyond its return value: the result it reports is a pure
function of the DNS oracle, independent of the incoming global state. -/
theorem c9_frame_amended (g : SocketGlobals) (dns : String → DnsResult) (domain : String)
    (default_port : ℤ) :
    (resolve_domain g dns domain default_port).2 = ⟨some DNS_TIMEOUT⟩ ∧
    (resolve_domain g dns domain default_port).1 = resolve_domain_result dns domain default_port :=
  ⟨rfl, rfl⟩

/-- C2 evidence: whatever the run configuration says — in particular
whatever `args.port` is — `main` resolves the undecorated line
`"1.1.1.1"` to the target `("1.1.1.1", 443)`: the call at ping.py line 175
never passes `args.port` into `parse_targets`, so the declared default 443
is always used. -/
theorem c2_port_flag_ignored (dns : String → DnsResult) (args : Args) :
    main_targets dns args ["1.1.1.1"] = [("1.1.1.1", 443)] := rfl

/-- C3 evidence: the input line `"[2001:db8::1]:8080"` resolves to no
target at all instead of the claimed `{(2001:db8::1, 8080)}`.  The
compiled pattern `r'^$$([0-9a-fA-F:]+)$$(?::(\d+))?$'` does not match the
line (second conjunct), the line is not a CIDR, has four colons, and is
not a bare address, so it falls through to domain resolution, which fails
on a bracketed literal. -/
theorem c3_bracket_line_unmatched :
    parse_targets noDns ["[2001:db8::1]:8080"] 10 443 = [] ∧
    ipv6PortMatch (pyStrip ("[2001:db8::1]:8080").toList) = none :=
  ⟨rfl, rfl⟩

/-- Length of the host enumeration agrees with the closed-form usable-host
count, for both address families. -/
theorem hostsList_length (net : IpNet) : (hostsList net).length = usableHostCount net := by
  cases net <;> simp only [hostsList, usableHostCount] <;> split_ifs <;> simp

/-- The host enumeration is strictly increasing: hosts come in ascending
address order. -/
theorem hostsList_sorted (net : IpNet) : (hostsList net).Sorted (· < ·) := by
  cases net <;> simp only [hostsList] <;> split_ifs <;>
    (rw [List.Sorted, List.pairwise_map]
     exact (List.pairwise_lt_range _).imp (fun h => by omega))

/-- C4 (confirmed): expanding a CIDR line yields exactly the usable host
count for IPv4; for IPv6 it yields the full usable host count when
`ipv6_sample_limit` is 0 and `min(usable_hosts, ipv6_sample_limit)`
otherwise, the sample being the first hosts in ascending address order;
concretely, the line `10.0.0.0/30` resolves to its two usable hosts. -/
theorem c4_cidr_expansion_count (a p limit : ℕ) (port : ℤ) :
    (expandNetwork (IpNet.v4 a p) limit port).length = usableHostCount (IpNet.v4 a p) ∧
    (expandNetwork (IpNet.v6 a p) limit port).length =
      (if limit = 0 then usableHostCount (IpNet.v6 a p)
       else min (usableHostCount (IpNet.v6 a p)) limit) ∧
    (hostsList (IpNet.v6 a p)).Sorted (· < ·) ∧
    parse_targets noDns ["10.0.0.0/30"] 10 443 = [("10.0.0.1", 443), ("10.0.0.2", 443)] := by
  refine ⟨?_, ?_, hostsList_sorted _, rfl⟩
  · unfold expandNetwork
    rw [List.length_map, hostsList_length]
  · unfold expandNetwork
    by_cases h0 : limit = 0
    · rw [if_pos h0, if_pos h0, List.length_map, hostsList_length]
    · rw [if_neg h0, if_neg h0, List.length_map, List.length_take, hostsList_length,
        Nat.min_comm]

/-- Characterization of the success filter: status `"Success"`, and each
configured bound is met by a present latency. -/
theorem success_filter_iff (minL maxL : Option ℚ) (r : ProbeResult) :
    success_filter minL maxL r = true ↔
      r.status = "Success" ∧
      (∀ m, minL = some m → ∃ v, r.latency = some v ∧ m ≤ v) ∧
      (∀ m, maxL = some m → ∃ v, r.latency = some v ∧ v ≤ m) := by
  unfold success_filter
  cases minL <;> cases maxL <;> cases hl : r.latency <;> simp [hl] <;> aesop

/-- Filtering the sorted list on an exact latency key returns the same
sublist as filtering the input: inserting `a` puts it before exactly the
elements with a strictly greater key, so the elements at any fixed key
keep their relative order. -/
theorem filter_orderedInsert_latKey (q : ℚ) (a : ProbeResult) (l : List ProbeResult) :
    ((l.orderedInsert latLe a).filter (fun r => latKey r == q)) =
      (if latKey a == q then a :: l.filter (fun r => latKey r == q)
       else l.filter (fun r => latKey r == q)) := by
  induction l with
  | nil => simp [List.orderedInsert, List.filter_cons]
  | cons b t ih =>
      by_cases hab : latLe a b
      · rw [List.orderedInsert_of_le latLe t hab]
        simp [List.filter_cons]
      · have hstep : (b :: t).orderedInsert latLe a = b :: t.orderedInsert latLe a := by
          simp [List.orderedInsert, hab]
        rw [hstep]
        by_cases hpa : latKey a = q
        · have hblt : latKey b < latKey a := not_le.mp hab
          have hb : ¬ latKey b = q := by
            intro hq
            rw [hq, hpa] at hblt
            exact absurd hblt (lt_irrefl q)
          simp [List.filter_cons, hpa, hb, ih]
        · simp [List.filter_cons, hpa, ih]

/-- Stability of the sort as filter invariance: at every fixed latency
value, the sorted success list lists the same outcomes in the same order
as the filtered input. -/
theorem filter_insertionSort_latKey (q : ℚ) (l : List ProbeResult) :
    ((l.insertionSort latLe).filter (fun r => latKey r == q)) =
      l.filter (fun r => latKey r == q) := by
  induction l with
  | nil => rfl
  | cons a t ih =>
      rw [List.insertionSort, filter_orderedInsert_latKey]
      by_cases hpa : latKey a = q
      · simp [List.filter_cons, hpa, ih]
      · simp [List.filter_cons, hpa, ih]

/-- C5 (confirmed): `failed_results` is exactly the outcomes whose status
differs from `"Success"`; the filtered successes are exactly the
`"Success"` outcomes meeting the configured bounds; the ranked list is
sorted nondecreasing by latency, its length is `min top_n` (count of
filtered successes), and the sort is stable (filter invariance at every
latency value). -/
theorem c5_aggregation (results : List ProbeResult) (minL maxL : Option ℚ) (top : ℕ) :
    (∀ r, r ∈ failed_results results ↔ r ∈ results ∧ ¬ r.status = "Success") ∧
    (∀ r, r ∈ success_results results minL maxL ↔
        r ∈ results ∧ r.status = "Success" ∧
        (∀ m, minL = some m → ∃ v, r.latency = some v ∧ m ≤ v) ∧
        (∀ m, maxL = some m → ∃ v, r.latency = some v ∧ v ≤ m)) ∧
    (ranked_success results minL maxL top).Sorted latLe ∧
    (ranked_success results minL maxL top).length =
      min top (success_results results minL maxL).length ∧
    (∀ q : ℚ, (((success_results results minL maxL).insertionSort latLe).filter
        (fun r => latKey r == q)) =
      (success_results results minL maxL).filter (fun r => latKey r == q)) := by
  refine ⟨?_, ?_, ?_, ?_, fun q => filter_insertionSort_latKey q _⟩
  · intro r
    simp [failed_results, List.mem_filter, bne_iff_ne]
  · intro r
    simp only [success_results, List.mem_filter, success_filter_iff, and_assoc]
  · exact List.Pairwise.sublist (List.take_sublist top _) (List.sorted_insertionSort latLe _)
  · unfold ranked_success
    rw [List.length_take, List.length_insertionSort]

/-- The outcome list of the design document's aggregation scenario. -/
def demoOutcomes : List ProbeResult :=
  [⟨"A", some 50, "Success"⟩, ⟨"B", some 10, "Success"⟩, ⟨"C", none, "Timeout"⟩]

/-- C5 witness: on the scenario outcomes with `top_n = 1` and no bounds,
the ranked list's length is `min 1 2 = 1`, by the aggregation theorem, and
it consists of the 10 ms outcome. -/
theorem c5_aggregation_witness :
    (ranked_success demoOutcomes none none 1).length =
      min 1 (success_results demoOutcomes none none).length ∧
    ranked_success demoOutcomes none none 1 = [⟨"B", some 10, "Success"⟩] :=
  ⟨(c5_aggregation demoOutcomes none none 1).2.2.2.1, by decide⟩

/-- Membership after a set-insertion: the old elements plus the new one. -/
theorem mem_addTarget {acc : List (String × ℤ)} {t x : String × ℤ} :
    x ∈ addTarget acc t ↔ x ∈ acc ∨ x = t := by
  unfold addTarget
  split_ifs with h
  · exact ⟨Or.inl, fun hx => hx.elim id (fun he => he ▸ h)⟩
  · simp [List.mem_append]

/-- Set-insertion preserves the no-duplicates invariant. -/
theorem addTarget_nodup {acc : List (String × ℤ)} {t : String × ℤ} (h : acc.Nodup) :
    (addTarget acc t).Nodup := by
  unfold addTarget
  split_ifs with hm
  · exact h
  · exact List.Nodup.append h (List.nodup_singleton t)
      (fun x hx hxt => absurd ((List.mem_singleton.mp hxt) ▸ hx) hm)

/-- The accumulator only grows under set-insertion. -/
theorem subset_addTarget {acc : List (String × ℤ)} {t : String × ℤ} :
    acc ⊆ addTarget acc t := fun _ hx => mem_addTarget.mpr (Or.inl hx)

/-- Folding a batch of insertions preserves the no-duplicates invariant. -/
theorem addTargets_nodup (ts : List (String × ℤ)) :
    ∀ {acc : List (String × ℤ)}, acc.Nodup → (addTargets acc ts).Nodup := by
  induction ts with
  | nil => exact fun h => h
  | cons t ts ih => exact fun h => ih (addTarget_nodup h)

/-- The accumulator only grows under a batch of insertions. -/
theorem subset_addTargets (ts : List (String × ℤ)) :
    ∀ {acc : List (String × ℤ)}, acc ⊆ addTargets acc ts := by
  induction ts with
  | nil => exact fun {acc} => List.Subset.refl acc
  | cons t ts ih => exact fun hx => ih (subset_addTarget hx)

/-- Every inserted element is present after the batch. -/
theorem mem_addTargets_of_mem {ts : List (String × ℤ)} {t : String × ℤ} (ht : t ∈ ts) :
    ∀ {acc : List (String × ℤ)}, t ∈ addTargets acc ts := by
  induction ts with
  | nil => cases ht
  | cons u ts ih =>
      intro acc
      rcases List.mem_cons.mp ht with he | hm
      · exact subset_addTargets ts (he ▸ mem_addTarget.mpr (Or.inr rfl))
      · exact ih hm

/-- Inserting elements that are all already present changes nothing. -/
theorem addTargets_eq_of_subset {ts : List (String × ℤ)} :
    ∀ {acc : List (String × ℤ)}, (∀ x ∈ ts, x ∈ acc) → addTargets acc ts = acc := by
  induction ts with
  | nil => exact fun _ => rfl
  | cons t ts ih =>
      intro acc h
      have h1 : addTarget acc t = acc := by
        unfold addTarget
        exact if_pos (h t (List.mem_cons_self t ts))
      show addTargets (addTarget acc t) ts = acc
      rw [h1]
      exact ih (fun x hx => h x (List.mem_cons_of_mem t hx))

/-- The line loop processes a concatenation by processing the pieces in
sequence. -/
theorem processLines_append (dns : String → DnsResult) (limit : ℕ) (port : ℤ)
    (xs : List String) : ∀ (acc : List (String × ℤ)) (ys : List String),
    processLines dns limit port acc (xs ++ ys) =
      processLines dns limit port (processLines dns limit port acc xs) ys := by
  induction xs with
  | nil => exact fun acc ys => rfl
  | cons l ls ih =>
      intro acc ys
      show processLines dns limit port _ (ls ++ ys) = _
      rw [ih]
      rfl

/-- The accumulator only grows across the line loop. -/
theorem subset_processLines (dns : String → DnsResult) (limit : ℕ) (port : ℤ)
    (ls : List String) : ∀ {acc : List (String × ℤ)},
    acc ⊆ processLines dns limit port acc ls := by
  induction ls with
  | nil => exact fun {acc} => List.Subset.refl acc
  | cons l ls ih =>
      intro acc x hx
      show x ∈ processLines dns limit port _ ls
      cases hres : lineTargets dns limit port l with
      | ok ts => simpa [hres] using ih (subset_addTargets ts hx)
      | error m => simpa [hres] using ih hx

/-- The line loop preserves the no-duplicates invariant. -/
theorem processLines_nodup (dns : String → DnsResult) (limit : ℕ) (port : ℤ)
    (ls : List String) : ∀ {acc : List (String × ℤ)}, acc.Nodup →
    (processLines dns limit port acc ls).Nodup := by
  induction ls with
  | nil => exact fun h => h
  | cons l ls ih =>
      intro acc h
      show ((processLines dns limit port (match lineTargets dns limit port l with
        | .ok ts => addTargets acc ts | .error _ => acc) ls)).Nodup
      cases hres : lineTargets dns limit port l with
      | ok ts => simpa [hres] using ih (addTargets_nodup ts h)
      | error m => simpa [hres] using ih h

/-- Every target a line contributes is in the loop's result. -/
theorem contribution_mem_processLines (dns : String → DnsResult) (limit : ℕ) (port : ℤ)
    (ls : List String) : ∀ {acc : List (String × ℤ)} {l : String} {ts : List (String × ℤ)}
    {t : String × ℤ}, l ∈ ls → lineTargets dns limit port l = .ok ts → t ∈ ts →
    t ∈ processLines dns limit port acc ls := by
  induction ls with
  | nil => intro _ _ _ _ hl; cases hl
  | cons l0 ls ih =>
      intro acc l ts t hl hok ht
      show t ∈ processLines dns limit port _ ls
      rcases List.mem_cons.mp hl with he | hm
      · rw [← he, hok]
        exact subset_processLines dns limit port ls (mem_addTargets_of_mem ht)
      · exact ih hm hok ht

/-- Reprocessing lines whose contributions are already accumulated leaves
the accumulator unchanged. -/
theorem processLines_eq_of_contained (dns : String → DnsResult) (limit : ℕ) (port : ℤ)
    (ls : List String) : ∀ {acc : List (String × ℤ)},
    (∀ l ∈ ls, ∀ ts, lineTargets dns limit port l = .ok ts → ∀ t ∈ ts, t ∈ acc) →
    processLines dns limit port acc ls = acc := by
  induction ls with
  | nil => exact fun _ => rfl
  | cons l0 ls ih =>
      intro acc h
      show processLines dns limit port (match lineTargets dns limit port l0 with
        | .ok ts => addTargets acc ts | .error _ => acc) ls = acc
      cases hres : lineTargets dns limit port l0 with
      | ok ts =>
          have hsub : addTargets acc ts = acc :=
            addTargets_eq_of_subset (h l0 (List.mem_cons_self l0 ls) ts hres)
          simp only [hres, hsub]
          exact ih (fun l hl ts2 hok t ht => h l (List.mem_cons_of_mem l0 hl) ts2 hok t ht)
      | error m =>
          simp only [hres]
          exact ih (fun l hl ts2 hok t ht => h l (List.mem_cons_of_mem l0 hl) ts2 hok t ht)

/-- C6 (confirmed): the resolved target list never contains two identical
`(address, port)` pairs, and repeating the whole input (duplicate or
overlapping specification lines) resolves to exactly the same target
list. -/
theorem c6_dedup (dns : String → DnsResult) (lines : List String) (limit : ℕ) (port : ℤ) :
    (parse_targets dns lines limit port).Nodup ∧
    parse_targets dns (lines ++ lines) limit port = parse_targets dns lines limit port := by
  constructor
  · exact processLines_nodup dns limit port lines List.nodup_nil
  · show processLines dns limit port [] (lines ++ lines) = _
    rw [processLines_append]
    exact processLines_eq_of_contained dns limit port lines
      (fun l hl ts hok t ht => contribution_mem_processLines dns limit port lines hl hok ht)

/-- C8 (confirmed): a line whose processing raises (bad CIDR, malformed
port, propagated resolution exception) contributes no target and leaves
the processing of every other line unchanged — resolution never raises to
its caller; and a domain lookup that fails with `socket.gaierror` or
`socket.timeout` yields the empty sequence rather than an exception. -/
theorem c8_error_isolation :
    (∀ (dns : String → DnsResult) (limit : ℕ) (port : ℤ) (xs ys : List String)
        (line m : String), lineTargets dns limit port line = Except.error m →
      parse_targets dns (xs ++ line :: ys) limit port =
        parse_targets dns (xs ++ ys) limit port) ∧
    (∀ (g : SocketGlobals) (dns : String → DnsResult) (domain : String) (port : ℤ),
        dns domain = DnsResult.gaiOrTimeout →
      (resolve_domain g dns domain port).1 = Except.ok []) := by
  constructor
  · intro dns limit port xs ys line m hl
    show processLines dns limit port [] (xs ++ line :: ys) =
      processLines dns limit port [] (xs ++ ys)
    rw [processLines_append, processLines_append]
    show processLines dns limit port (match lineTargets dns limit port line with
      | .ok ts => addTargets _ ts | .error _ => _) ys = _
    rw [hl]
  · intro g dns domain port h
    show resolve_domain_result dns domain port = Except.ok []
    unfold resolve_domain_result
    rw [h]

/-- C8 witness: in a three-line input whose middle line has a malformed
port, the bad line is skipped with zero contributed targets while both
surrounding lines are still resolved; and a failing DNS lookup returns the
empty list. -/
theorem c8_error_isolation_witness :
    lineTargets noDns 10 443 "1.2.3.4:abc" = Except.error (intValueError "abc".toList) ∧
    parse_targets noDns ["8.8.8.8", "1.2.3.4:abc", "9.9.9.9"] 10 443 =
      parse_targets noDns ["8.8.8.8", "9.9.9.9"] 10 443 ∧
    noDns "x.example" = DnsResult.gaiOrTimeout ∧
    (resolve_domain ⟨some 2⟩ noDns "x.example" 443).1 = Except.ok [] :=
  ⟨rfl,
    c8_error_isolation.1 noDns 10 443 ["8.8.8.8"] ["9.9.9.9"] "1.2.3.4:abc"
      (intValueError "abc".toList) rfl,
    rfl,
    c8_error_isolation.2 ⟨some 2⟩ noDns "x.example" 443 rfl⟩
